import Mathlib

/-!
A shallow embedding of `src/service-worker.js` (the Logogen service worker)
and proofs about its routing, lifecycle, reconciliation and messaging logic.

Responses are modelled by status, type string, optional etag header and body;
caches are modelled as partial maps from URL keys to responses; the host
environment (network, URL parsing, cache contents, per-operation success) is
an explicit parameter of each handler.
-/

/-- `CACHE_NAME` constant from the source. -/
def CACHE_NAME : String := "logo-package-generator-v1.0.0"

/-- `STATIC_CACHE` constant from the source. -/
def STATIC_CACHE : String := "static-v1"

/-- `DYNAMIC_CACHE` constant from the source. -/
def DYNAMIC_CACHE : String := "dynamic-v1"

/-- `STATIC_ASSETS`: assets cached during installation. -/
def STATIC_ASSETS : List String :=
  ["/",
   "/index.html",
   "/manifest.json",
   "https://i.postimg.cc/dtq83xGm/logo-512x512.png",
   "https://cdnjs.cloudflare.com/ajax/libs/font-awesome/6.4.0/css/all.min.css",
   "https://cdnjs.cloudflare.com/ajax/libs/jszip/3.10.1/jszip.min.js",
   "https://cdnjs.cloudflare.com/ajax/libs/FileSaver.js/2.0.5/FileSaver.min.js"]

/-- `EXTERNAL_RESOURCES`: third-party resources to cache. -/
def EXTERNAL_RESOURCES : List String :=
  ["https://fonts.googleapis.com/css2?family=Segoe+UI:wght@300;400;500;600;700&display=swap",
   "https://cdnjs.cloudflare.com/ajax/libs/font-awesome/6.4.0/webfonts/fa-solid-900.woff2",
   "https://cdnjs.cloudflare.com/ajax/libs/font-awesome/6.4.0/webfonts/fa-regular-400.woff2"]

/-- A network response: HTTP status, response type (`"basic"`, `"cors"`,
`"opaque"`, ...; field `rtype` stands for the source's `response.type`),
the optional `etag` header (`headers.get` returns null for an absent header,
modelled as `none`), and the body. `clone()` duplicates the value. -/
structure Response where
  status : Nat
  rtype : String
  etag : Option String
  body : String
deriving DecidableEq, Repr

/-- A request as the fetch handler sees it: method and URL. -/
structure Request where
  method : String
  url : String
deriving DecidableEq, Repr

/-- A cache (or the union the registry-wide `caches.match` searches):
a partial map from URL keys to responses. -/
def Cache : Type := String → Option Response

/-- Whether the character list `p` is an initial segment of `s`. -/
def charsStartWith : List Char → List Char → Bool
  | _, [] => true
  | [], _ :: _ => false
  | c :: s, p :: ps => c == p && charsStartWith s ps

/-- Whether the character list `p` occurs contiguously inside `s`. -/
def charsContain : List Char → List Char → Bool
  | [], p => p.isEmpty
  | c :: s, p => charsStartWith (c :: s) p || charsContain s p

/-- JavaScript `String.prototype.startsWith`. -/
def strStartsWith (s pat : String) : Bool :=
  charsStartWith s.data pat.data

/-- JavaScript `String.prototype.includes`. -/
def strIncludes (s pat : String) : Bool :=
  charsContain s.data pat.data

/-- The host environment the fetch handler interacts with:
`origin u` models `new URL(u).origin`, `selfOrigin` models
`self.location.origin`, `cache` models `caches.match`, and
`network u` models `fetch(u)` (`none` = the fetch rejects). -/
structure RouterEnv where
  origin : String → String
  selfOrigin : String
  cache : Cache
  network : String → Option Response

/-- What the fetch handler answers with. -/
inductive RouteResult where
  /-- The handler returned without calling `respondWith`. -/
  | skip
  /-- `respondWith` resolved with this response. -/
  | ok (resp : Response)
  /-- The network rejection propagated to the caller. -/
  | err
deriving DecidableEq, Repr

/-- The observable outcome of one fetch-event interception: the result,
whether `fetch` was invoked, and the `cache.put` issued against the
DYNAMIC cache (key and stored clone), if any. -/
structure RouteOutcome where
  res : RouteResult
  networkCalled : Bool
  dynamicPut : Option (String × Response)
deriving DecidableEq, Repr

/-- The fetch event listener (source lines 67-129). -/
def handleFetch (env : RouterEnv) (req : Request) : RouteOutcome :=
  if req.method != "GET" || strStartsWith req.url "chrome-extension://"
      || strIncludes req.url "extension" then
    ⟨RouteResult.skip, false, none⟩
  else if strIncludes req.url "api.openai.com" then
    match env.network req.url with
    | none => ⟨RouteResult.err, true, none⟩
    | some r => ⟨RouteResult.ok r, true, none⟩
  else
    match env.cache req.url with
    | some cached => ⟨RouteResult.ok cached, false, none⟩
    | none =>
      match env.network req.url with
      | none => ⟨RouteResult.err, true, none⟩
      | some r =>
        if r.status != 200 || r.rtype != "basic" then
          ⟨RouteResult.ok r, true, none⟩
        else
          let isCacheable :=
            env.origin req.url == env.selfOrigin
              || EXTERNAL_RESOURCES.contains req.url
              || STATIC_ASSETS.contains req.url
          if isCacheable then
            ⟨RouteResult.ok r, true, some (req.url, r)⟩
          else
            ⟨RouteResult.ok r, true, none⟩

/-- What `event.waitUntil` on the install chain produces. In the
service-worker host a rejected `waitUntil` promise makes the installation
fail (the worker is discarded, never activated); a resolved promise
installs the worker. -/
inductive InstallResult where
  /-- The chain resolved: the worker is installed.
  `skipWaitingCalled` records whether `self.skipWaiting()` ran. -/
  | installed (skipWaitingCalled : Bool)
  /-- The chain rejected: installation fails, terminal. -/
  | failed
deriving DecidableEq, Repr

/-- The install event listener (source lines 24-41). `fetchOk u` tells
whether fetching-and-storing asset `u` succeeds; `cache.addAll` rejects
iff any listed asset fails (all-or-nothing). On success the chain calls
`self.skipWaiting()`; on failure the trailing `.catch` logs the error and
returns, so the promise handed to `waitUntil` RESOLVES and `skipWaiting`
is never reached. -/
def installChain (fetchOk : String → Bool) : InstallResult :=
  if (STATIC_ASSETS ++ EXTERNAL_RESOURCES).all fetchOk then
    InstallResult.installed true
  else
    InstallResult.installed false

/-- Observable outcome of the activate event listener:
which cache names had `caches.delete` issued against them, and whether
`self.clients.claim()` was reached. -/
structure ActivateOutcome where
  attemptedDeletes : List String
  claimed : Bool
deriving DecidableEq, Repr

/-- The activate event listener (source lines 44-64). `cacheNames` is what
`caches.keys()` returns; `deleteOk c` is whether `caches.delete c`
fulfills. The `map` issues every delete before `Promise.all` settles, so
every non-current cache has its delete attempted; entries for the current
caches are `undefined` (modelled `none`), which `Promise.all` treats as
fulfilled. `clients.claim()` runs only if `Promise.all` fulfills, i.e. no
issued delete rejected; there is no `catch` on this chain. -/
def activateHandler (cacheNames : List String) (deleteOk : String → Bool) :
    ActivateOutcome :=
  let results : List (Option Bool) := cacheNames.map (fun c =>
    if c != STATIC_CACHE && c != DYNAMIC_CACHE then some (deleteOk c) else none)
  { attemptedDeletes :=
      cacheNames.filter (fun c => c != STATIC_CACHE && c != DYNAMIC_CACHE)
    claimed := results.all (fun r => r != some false) }

/-- A message posted by a client (`event.data`), carrying its `type` field. -/
structure ClientMsg where
  msgType : String
deriving DecidableEq, Repr

/-- The version reply posted on `event.ports[0]` for `GET_VERSION`. -/
structure VersionReply where
  version : String
  cacheName : String
deriving DecidableEq, Repr

/-- The message event listener (source lines 255-268): `data` is `none`
when `event.data` is null. Returns whether `skipWaiting` was called and
the reply (if any) posted on the reply port. The listener never touches
the cache registry; `cache` is passed to express that the reply does not
depend on it. -/
def handleMessage (cache : Cache) (data : Option ClientMsg) :
    Bool × Option VersionReply :=
  match data with
  | none => (false, none)
  | some m =>
    (m.msgType == "SKIP_WAITING",
     if m.msgType == "GET_VERSION" then
       some ⟨"1.0.0", CACHE_NAME⟩
     else none)

/-- Environment for `checkForUpdates`: `network u` models `fetch(u)`
(`none` = the fetch throws), `putOk u` models whether `cache.put` for
asset `u` fulfills. -/
structure ReconEnv where
  network : String → Option Response
  putOk : String → Bool

/-- State threaded through the reconciliation loop: the STATIC cache
contents and the `updatedAssets` accumulator. -/
structure ReconState where
  cache : Cache
  updated : List String

/-- One iteration of the `for (const asset of STATIC_ASSETS)` loop in
`checkForUpdates` (source lines 222-235). A fetch that throws is caught
and skips the asset. The update condition is
`!cachedResponse || networkEtag !== cachedEtag` (two absent etags are
both `null`, hence equal). `cache.put` happens before the push; if the
put throws the per-asset `catch` swallows it and nothing is recorded. -/
def updateStep (env : ReconEnv) (s : ReconState) (asset : String) : ReconState :=
  match env.network asset with
  | none => s
  | some nr =>
    let stale : Bool :=
      match s.cache asset with
      | none => true
      | some cr => nr.etag != cr.etag
    if stale then
      if env.putOk asset then
        { cache := fun k => if k = asset then some nr else s.cache k
          updated := s.updated ++ [asset] }
      else s
    else s

/-- The body of `checkForUpdates` up to the broadcast (source lines
217-235): iterate over `STATIC_ASSETS`, starting from the current STATIC
cache contents and an empty `updatedAssets` list. -/
def checkForUpdates (env : ReconEnv) (cache0 : Cache) : ReconState :=
  STATIC_ASSETS.foldl (updateStep env) ⟨cache0, []⟩

/-- The message broadcast to clients after a reconciliation pass. -/
structure CoreMessage where
  msgType : String
  assets : List String
deriving DecidableEq, Repr

/-- The broadcast tail of `checkForUpdates` (source lines 237-248):
if `updatedAssets` is non-empty, post one `ASSETS_UPDATED` message to
each connected client (clients are identified by an id). Returns the
list of (client id, message) deliveries. -/
def reconBroadcast (env : ReconEnv) (cache0 : Cache) (clients : List Nat) :
    List (Nat × CoreMessage) :=
  let u := (checkForUpdates env cache0).updated
  if u.length > 0 then
    clients.map (fun c => (c, ⟨"ASSETS_UPDATED", u⟩))
  else []

/-- The source's per-asset staleness test, as a predicate on the network
response `nr` and the cached copy `c`: stale when there is no cached copy
or the etags differ (`null !== null` is false in JS, so two absent etags
compare equal). -/
def needsRefresh (nr : Response) (c : Option Response) : Bool :=
  match c with
  | none => true
  | some cr => nr.etag != cr.etag

/-- Whether one reconciliation iteration actually refreshes asset `a`
whose cached copy is `c`: the fetch must succeed, the staleness test must
hold, and the `cache.put` must succeed. -/
def refreshHappens (env : ReconEnv) (c : Option Response) (a : String) : Bool :=
  match env.network a with
  | none => false
  | some nr => needsRefresh nr c && env.putOk a

/-- Concrete reconciler network for the C2 counterexample: only `/` is
reachable; its response has no etag. -/
def c2net : String → Option Response :=
  fun k => if k = "/" then some ⟨200, "basic", none, "fresh"⟩ else none

/-- Concrete STATIC cache for the C2 counterexample: only `/` is cached,
also without an etag. -/
def c2cache : Cache :=
  fun k => if k = "/" then some ⟨200, "basic", none, "stale"⟩ else none

/-- Reconciler environment for the C2 counterexample. -/
def c2envx : ReconEnv := ⟨c2net, fun _ => true⟩

/-- Reconciler environment for the C2 amended-claim witness: every fetch
succeeds with etag `W/abc`, every put succeeds. -/
def c2wenv : ReconEnv := ⟨fun _ => some ⟨200, "basic", some "W/abc", "fresh"⟩, fun _ => true⟩

/-- Empty STATIC cache for the C2 amended-claim witness. -/
def c2wcache : Cache := fun _ => none

/-- Router environment for the C4 witness: every key is cached. -/
def c4env : RouterEnv :=
  ⟨fun _ => "https://app.example", "https://app.example",
   fun _ => some ⟨200, "basic", none, "cached-body"⟩, fun _ => none⟩

/-- Request for the C4 witness. -/
def c4req : Request := ⟨"GET", "/index.html"⟩

/-- Router environment for the C5 witness: empty cache, network answers 404. -/
def c5env : RouterEnv :=
  ⟨fun _ => "https://app.example", "https://app.example",
   fun _ => none, fun _ => some ⟨404, "basic", none, "not-found"⟩⟩

/-- Request for the C5 witness. -/
def c5req : Request := ⟨"GET", "/missing.css"⟩

/-- Router environment for the C6 witness: empty cache, valid same-origin
network response. -/
def c6env : RouterEnv :=
  ⟨fun _ => "https://app.example", "https://app.example",
   fun _ => none, fun _ => some ⟨200, "basic", some "e1", "fresh-body"⟩⟩

/-- Request for the C6 witness. -/
def c6req : Request := ⟨"GET", "/app.js"⟩

/-- Router environment for the C6 counterexample: empty cache; the
network answers with a 200 response of type `cors` — ok and non-opaque,
as a CORS fetch of an allow-listed third-party URL yields. -/
def c6cenv : RouterEnv :=
  ⟨fun _ => "https://fonts.googleapis.com", "https://app.example",
   fun _ => none, fun _ => some ⟨200, "cors", some "e9", "font-css"⟩⟩

/-- Request for the C6 counterexample: the Google-fonts stylesheet,
first entry of `EXTERNAL_RESOURCES`. -/
def c6creq : Request :=
  ⟨"GET",
   "https://fonts.googleapis.com/css2?family=Segoe+UI:wght@300;400;500;600;700&display=swap"⟩

/-- Router environment for the C9 witness: empty cache, basic response,
all URLs parse to the host origin. -/
def c9env : RouterEnv :=
  ⟨fun _ => "https://app.example", "https://app.example",
   fun _ => none, fun _ => some ⟨200, "basic", none, "body"⟩⟩

/-- Request for the C9 witness. -/
def c9req : Request := ⟨"GET", "/logo.css"⟩

/-- Reconciler environment for the C10 witness: every fetch succeeds with
a fresh etag, every put succeeds (so every manifest asset is updated). -/
def c10env : ReconEnv := ⟨fun _ => some ⟨200, "basic", some "E2", "new"⟩, fun _ => true⟩

/-- STATIC cache for the C10 witness: everything cached with an old etag. -/
def c10cache : Cache := fun _ => some ⟨200, "basic", some "E1", "old"⟩

/-! ## Helper lemmas about the reconciliation fold -/

lemma updateStep_cache_ne (env : ReconEnv) (s : ReconState) (b a : String)
    (h : a ≠ b) : (updateStep env s b).cache a = s.cache a := by
  unfold updateStep
  cases env.network b with
  | none => rfl
  | some nr =>
    dsimp only
    split
    · split
      · simp [h]
      · rfl
    · rfl

lemma updateStep_updated (env : ReconEnv) (s : ReconState) (b : String) :
    (updateStep env s b).updated = s.updated ∨
    (updateStep env s b).updated = s.updated ++ [b] := by
  unfold updateStep
  cases env.network b with
  | none => exact Or.inl rfl
  | some nr =>
    dsimp only
    split
    · split
      · exact Or.inr rfl
      · exact Or.inl rfl
    · exact Or.inl rfl

lemma updateStep_mem_ne (env : ReconEnv) (s : ReconState) (b a : String)
    (h : a ≠ b) : a ∈ (updateStep env s b).updated ↔ a ∈ s.updated := by
  rcases updateStep_updated env s b with he | he <;> simp [he, h]

lemma foldl_updateStep_not_mem (env : ReconEnv) :
    ∀ (l : List String) (a : String), a ∉ l → ∀ s : ReconState,
      (l.foldl (updateStep env) s).cache a = s.cache a ∧
      (a ∈ (l.foldl (updateStep env) s).updated ↔ a ∈ s.updated)
  | [], _, _, _ => ⟨rfl, Iff.rfl⟩
  | b :: t, a, h, s => by
    have hab : a ≠ b := fun e => h (by simp [e])
    have hat : a ∉ t := fun m => h (List.mem_cons_of_mem _ m)
    have ht := foldl_updateStep_not_mem env t a hat (updateStep env s b)
    simp only [List.foldl_cons]
    exact ⟨ht.1.trans (updateStep_cache_ne env s b a hab),
           ht.2.trans (updateStep_mem_ne env s b a hab)⟩

lemma updateStep_self (env : ReconEnv) (s : ReconState) (a : String) :
    (a ∈ (updateStep env s a).updated ↔
       a ∈ s.updated ∨ refreshHappens env (s.cache a) a = true) ∧
    (updateStep env s a).cache a =
      (if refreshHappens env (s.cache a) a then env.network a else s.cache a) := by
  unfold updateStep refreshHappens
  cases hn : env.network a with
  | none => simp
  | some nr =>
    dsimp only
    cases hc : s.cache a with
    | none =>
      cases hp : env.putOk a <;> simp [needsRefresh, hp, hc]
    | some cr =>
      by_cases he : nr.etag = cr.etag
      · simp [needsRefresh, he, hc]
      · have hne : (nr.etag != cr.etag) = true := by
          simp [bne_iff_ne, he]
        cases hp : env.putOk a <;>
          simp [needsRefresh, hne, hp, hc]

lemma foldl_updateStep_mem (env : ReconEnv) (cache0 : Cache)
    (l : List String) (a : String) (hnd : l.Nodup) (ha : a ∈ l) :
    (a ∈ (l.foldl (updateStep env) ⟨cache0, []⟩).updated ↔
       refreshHappens env (cache0 a) a = true) ∧
    (l.foldl (updateStep env) ⟨cache0, []⟩).cache a =
      (if refreshHappens env (cache0 a) a then env.network a else cache0 a) := by
  obtain ⟨l1, l2, rfl⟩ := List.append_of_mem ha
  rw [List.nodup_append] at hnd
  obtain ⟨h1, h2, hdisj⟩ := hnd
  have ha1 : a ∉ l1 := fun m => (hdisj m) (List.mem_cons_self a l2)
  have ha2 : a ∉ l2 := (List.nodup_cons.mp h2).1
  rw [List.foldl_append, List.foldl_cons]
  have hmid := foldl_updateStep_not_mem env l1 a ha1 ⟨cache0, []⟩
  set mid := l1.foldl (updateStep env) ⟨cache0, []⟩ with hmiddef
  have hmidc : mid.cache a = cache0 a := hmid.1
  have hmidu : a ∉ mid.updated := fun m => by
    have := hmid.2.mp m
    simp at this
  have hstep := updateStep_self env mid a
  have htail := foldl_updateStep_not_mem env l2 a ha2 (updateStep env mid a)
  constructor
  · rw [htail.2, hstep.1, hmidc]
    constructor
    · rintro (hu | hr)
      · exact absurd hu hmidu
      · exact hr
    · exact fun hr => Or.inr hr
  · rw [htail.1, hstep.2, hmidc]

/-! ## Claim theorems -/

/-- Claim C1 (code bug). The spec says a single-asset failure during
INSTALLING makes the lifecycle end in the terminal FAILED state. The
code's own log message in the `.catch` branch says the installation
failed, but the `.catch` converts the rejection into a resolution, so
`event.waitUntil` never sees a rejected promise: evaluated at an input
where fetching `/index.html` fails, the install chain still resolves as
installed (merely without `skipWaiting`), and no input at all can produce
the FAILED outcome. -/
theorem c1_install_failure_swallowed :
    installChain (fun u => u != "/index.html") = InstallResult.installed false ∧
    ∀ fetchOk : String → Bool, installChain fetchOk ≠ InstallResult.failed := by
  refine ⟨by decide, ?_⟩
  intro fetchOk
  unfold installChain
  split <;> simp

/-- Claim C2, counterexample. At the concrete input where `/` is cached
without an etag and the network copy of `/` also has no etag, the claim
says the pass overwrites the entry and records `/` as updated; the code
compares `null !== null`, finds the copies equivalent, and leaves the
entry untouched and unrecorded. -/
theorem c2_both_absent_counterexample :
    c2net "/" = some ⟨200, "basic", none, "fresh"⟩ ∧
    c2cache "/" = some ⟨200, "basic", none, "stale"⟩ ∧
    ((checkForUpdates c2envx c2cache).updated.contains "/") = false ∧
    (checkForUpdates c2envx c2cache).cache "/" = some ⟨200, "basic", none, "stale"⟩ := by
  refine ⟨rfl, rfl, by decide, by decide⟩

/-- Claim C2, amended: two responses are equivalent iff their etags are
equal or both absent (`null !== null` is false, so two absent tokens
compare EQUAL and do not force a refresh); for every manifest asset whose
fetch and store succeed, the pass overwrites the cached entry and records
the asset exactly when there is no cached copy or the two etags differ —
in particular when exactly one side lacks a token. -/
theorem c2_refresh_on_etag_mismatch (env : ReconEnv) (cache0 : Cache)
    (a : String) (nr : Response) (ha : a ∈ STATIC_ASSETS)
    (hn : env.network a = some nr) (hp : env.putOk a = true) :
    (a ∈ (checkForUpdates env cache0).updated ↔
       needsRefresh nr (cache0 a) = true) ∧
    (checkForUpdates env cache0).cache a =
      (if needsRefresh nr (cache0 a) then some nr else cache0 a) := by
  have hnd : STATIC_ASSETS.Nodup := by decide
  have h := foldl_updateStep_mem env cache0 STATIC_ASSETS a hnd ha
  unfold checkForUpdates
  have hr : refreshHappens env (cache0 a) a = needsRefresh nr (cache0 a) := by
    unfold refreshHappens
    simp [hn, hp]
  rw [hr] at h
  refine ⟨h.1, ?_⟩
  rw [h.2, hn]

/-- Witness for the amended C2 theorem at a concrete input: with an empty
cache and a network copy of `/index.html` carrying etag `W/abc`, the pass
records the asset and stores the network copy. -/
theorem c2_refresh_on_etag_mismatch_witness :
    (("/index.html" ∈ (checkForUpdates c2wenv c2wcache).updated) ↔
       needsRefresh ⟨200, "basic", some "W/abc", "fresh"⟩ (c2wcache "/index.html") = true) ∧
    (checkForUpdates c2wenv c2wcache).cache "/index.html" =
      (if needsRefresh ⟨200, "basic", some "W/abc", "fresh"⟩ (c2wcache "/index.html") then
         some ⟨200, "basic", some "W/abc", "fresh"⟩
       else c2wcache "/index.html") :=
  c2_refresh_on_etag_mismatch c2wenv c2wcache "/index.html"
    ⟨200, "basic", some "W/abc", "fresh"⟩ (by decide) rfl rfl

/-- Claim C3, counterexample. With one stale cache `old-cache` whose
delete rejects, the activate chain (which has no `catch`) rejects before
reaching `self.clients.claim()`: `claimed = false`, contradicting the
claim that the controller claims clients under every pattern of
per-namespace delete failures (and nothing is logged for the failure). -/
theorem c3_delete_failure_counterexample :
    activateHandler ["old-cache"] (fun _ => false) =
      ⟨["old-cache"], false⟩ := by decide

/-- Claim C3, amended: every cache name other than the current
`static-v1` and `dynamic-v1` has its delete initiated (the `map` issues
all deletes before `Promise.all` settles, so one failure does not stop
the others from having been started), but `clients.claim()` runs iff
every issued delete succeeds; a delete failure is not caught or logged,
and clients are then not claimed. -/
theorem c3_claim_iff_all_deletes_ok (cacheNames : List String)
    (deleteOk : String → Bool) :
    (activateHandler cacheNames deleteOk).attemptedDeletes =
      cacheNames.filter (fun c => c != STATIC_CACHE && c != DYNAMIC_CACHE) ∧
    (activateHandler cacheNames deleteOk).claimed =
      (cacheNames.filter (fun c => c != STATIC_CACHE && c != DYNAMIC_CACHE)).all
        deleteOk := by
  refine ⟨rfl, ?_⟩
  unfold activateHandler
  dsimp only
  induction cacheNames with
  | nil => rfl
  | cons c t ih =>
    cases h : (c != STATIC_CACHE && c != DYNAMIC_CACHE) with
    | false =>
      simp only [List.map_cons, List.all_cons, List.filter_cons, h, ih,
        Bool.false_eq_true, if_false]
      simp
    | true =>
      simp only [List.map_cons, List.all_cons, List.filter_cons, h, ih,
        eq_self_iff_true, if_true, List.all_cons]
      cases deleteOk c <;> simp

/-- Claim C8: a `GET_VERSION` client message is answered on the reply
port with exactly version `1.0.0` and cache name
`logo-package-generator-v1.0.0`, whatever the cache contents are (the
listener never reads the cache). -/
theorem c8_get_version_reply (cache : Cache) :
    handleMessage cache (some ⟨"GET_VERSION"⟩) =
      (false, some ⟨"1.0.0", "logo-package-generator-v1.0.0"⟩) := rfl

/-- Claim C4: a routed retrieval request (GET, not an extension URL, not
the live-API origin) whose key is in the cache is answered with the
cached response, with no network call and no DYNAMIC store. -/
theorem c4_cache_hit_no_network (env : RouterEnv) (req : Request) (c : Response)
    (hskip : (req.method != "GET" || strStartsWith req.url "chrome-extension://"
        || strIncludes req.url "extension") = false)
    (hapi : strIncludes req.url "api.openai.com" = false)
    (hc : env.cache req.url = some c) :
    handleFetch env req = ⟨RouteResult.ok c, false, none⟩ := by
  unfold handleFetch
  rw [hskip, hapi]
  simp only [Bool.false_eq_true, if_false, hc]

/-- Witness for C4 at a concrete input: `/index.html` is cached, so the
router answers from the cache without touching the network. -/
theorem c4_cache_hit_no_network_witness :
    handleFetch c4env c4req =
      ⟨RouteResult.ok ⟨200, "basic", none, "cached-body"⟩, false, none⟩ :=
  c4_cache_hit_no_network c4env c4req ⟨200, "basic", none, "cached-body"⟩
    (by decide) (by decide) rfl

/-- Claim C5: on a cache miss, a network response whose status is not 200
or whose type is the cross-origin `opaque` type is returned to the caller
as-is and no DYNAMIC store is issued (the source's guard also rejects
every other non-`basic` type). -/
theorem c5_invalid_response_not_stored (env : RouterEnv) (req : Request)
    (r : Response)
    (hskip : (req.method != "GET" || strStartsWith req.url "chrome-extension://"
        || strIncludes req.url "extension") = false)
    (hapi : strIncludes req.url "api.openai.com" = false)
    (hmiss : env.cache req.url = none)
    (hnet : env.network req.url = some r)
    (hbad : r.status ≠ 200 ∨ r.rtype = "opaque") :
    handleFetch env req = ⟨RouteResult.ok r, true, none⟩ := by
  unfold handleFetch
  rw [hskip, hapi]
  simp only [Bool.false_eq_true, if_false, hmiss, hnet]
  have hcond : (r.status != 200 || r.rtype != "basic") = true := by
    rcases hbad with h | h
    · simp [bne_iff_ne, h]
    · rw [h]
      simp
  rw [hcond]
  simp

/-- Witness for C5 at a concrete input: a 404 response for a miss is
passed through and nothing is written to the DYNAMIC cache. -/
theorem c5_invalid_response_not_stored_witness :
    handleFetch c5env c5req =
      ⟨RouteResult.ok ⟨404, "basic", none, "not-found"⟩, true, none⟩ :=
  c5_invalid_response_not_stored c5env c5req ⟨404, "basic", none, "not-found"⟩
    (by decide) (by decide) rfl rfl (Or.inl (by decide))

/-- Claim C6 (amended): the guard at source line 93 rejects every
non-`basic` response type, not just `opaque`, so only a status-200
`basic`-type response is ever stored. On a cache miss with such a
response, the router returns it and issues a DYNAMIC store of its clone
under the request URL iff the URL's origin is the host origin, or the
URL is in `EXTERNAL_RESOURCES`, or it is in `STATIC_ASSETS`; otherwise
no store is issued. -/
theorem c6_dynamic_store_allow_list (env : RouterEnv) (req : Request)
    (r : Response)
    (hskip : (req.method != "GET" || strStartsWith req.url "chrome-extension://"
        || strIncludes req.url "extension") = false)
    (hapi : strIncludes req.url "api.openai.com" = false)
    (hmiss : env.cache req.url = none)
    (hnet : env.network req.url = some r)
    (hok : r.status = 200) (hbasic : r.rtype = "basic") :
    handleFetch env req =
      ⟨RouteResult.ok r, true,
       if env.origin req.url = env.selfOrigin ∨ req.url ∈ EXTERNAL_RESOURCES
           ∨ req.url ∈ STATIC_ASSETS
       then some (req.url, r) else none⟩ := by
  unfold handleFetch
  rw [hskip, hapi]
  simp only [Bool.false_eq_true, if_false, hmiss, hnet]
  have hcond : (r.status != 200 || r.rtype != "basic") = false := by
    simp [hok, hbasic]
  rw [hcond]
  simp only [Bool.false_eq_true, if_false]
  by_cases hcache : env.origin req.url = env.selfOrigin
      ∨ req.url ∈ EXTERNAL_RESOURCES ∨ req.url ∈ STATIC_ASSETS
  · have hb : (env.origin req.url == env.selfOrigin
        || EXTERNAL_RESOURCES.contains req.url
        || STATIC_ASSETS.contains req.url) = true := by
      rcases hcache with h | h | h <;>
        simp [h, List.contains, List.elem_iff]
    rw [if_pos hcache, hb]
    simp
  · have hb : (env.origin req.url == env.selfOrigin
        || EXTERNAL_RESOURCES.contains req.url
        || STATIC_ASSETS.contains req.url) = false := by
      push_neg at hcache
      simp [List.contains, List.elem_iff, hcache.1, hcache.2.1, hcache.2.2]
    rw [if_neg hcache, hb]
    simp

/-- Witness for C6 at a concrete input: a same-origin miss with a valid
response is stored in the DYNAMIC cache and returned. -/
theorem c6_dynamic_store_allow_list_witness :
    handleFetch c6env c6req =
      ⟨RouteResult.ok ⟨200, "basic", some "e1", "fresh-body"⟩, true,
       if c6env.origin c6req.url = c6env.selfOrigin
           ∨ c6req.url ∈ EXTERNAL_RESOURCES ∨ c6req.url ∈ STATIC_ASSETS
       then some (c6req.url, ⟨200, "basic", some "e1", "fresh-body"⟩)
       else none⟩ :=
  c6_dynamic_store_allow_list c6env c6req ⟨200, "basic", some "e1", "fresh-body"⟩
    (by decide) (by decide) rfl rfl rfl rfl

/-- Claim C6, counterexample. The claim quantifies over every valid
(status ok, non-opaque) miss response and requires a DYNAMIC store iff
the URL passes the allow-list. At the concrete input below the response
has status 200 and type `cors` (not opaque) and the request URL is in
`EXTERNAL_RESOURCES`, so the claim requires a store; the router's guard
rejects every non-`basic` type and issues no store, returning the
response as-is. -/
theorem c6_cors_response_not_stored_counterexample :
    (Response.mk 200 "cors" (some "e9") "font-css").status = 200 ∧
    (Response.mk 200 "cors" (some "e9") "font-css").rtype ≠ "opaque" ∧
    c6creq.url ∈ EXTERNAL_RESOURCES ∧
    c6cenv.cache c6creq.url = none ∧
    c6cenv.network c6creq.url = some ⟨200, "cors", some "e9", "font-css"⟩ ∧
    handleFetch c6cenv c6creq =
      ⟨RouteResult.ok ⟨200, "cors", some "e9", "font-css"⟩, true, none⟩ :=
  ⟨rfl, by decide, by decide, rfl, rfl, by decide⟩

/-- Claim C9: whatever the router writes to the DYNAMIC cache comes from
a `basic`-type network response for the request URL (the type guard runs
before the allow-list); under the platform guarantee that a `basic`-type
response only arises for a URL of the host origin, every URL the router
writes is a host-origin URL — the `EXTERNAL_RESOURCES` and
`STATIC_ASSETS` clauses can never admit a cross-origin response. -/
theorem c9_dynamic_writes_basic_same_origin (env : RouterEnv) (req : Request)
    (url : String) (r : Response)
    (hput : (handleFetch env req).dynamicPut = some (url, r))
    (hplat : ∀ u resp, env.network u = some resp → resp.rtype = "basic" →
        env.origin u = env.selfOrigin) :
    url = req.url ∧ env.network req.url = some r ∧ r.rtype = "basic" ∧
    env.origin url = env.selfOrigin := by
  unfold handleFetch at hput
  by_cases h1 : (req.method != "GET" || strStartsWith req.url "chrome-extension://"
      || strIncludes req.url "extension") = true
  · simp [h1] at hput
  by_cases h2 : (strIncludes req.url "api.openai.com") = true
  · simp only [h1, h2] at hput
    cases hn : env.network req.url <;> simp [hn] at hput
  cases hc : env.cache req.url with
  | some cached =>
    simp [h1, h2, hc] at hput
  | none =>
  cases hn : env.network req.url with
  | none =>
    simp [h1, h2, hc, hn] at hput
  | some r2 =>
  cases h3 : (r2.status != 200 || r2.rtype != "basic") with
  | true =>
    simp [h1, h2, hc, hn, h3] at hput
  | false =>
  have hbasic : r2.rtype = "basic" := by
    simp at h3
    exact h3.2
  simp [h1, h2, hc, hn, h3] at hput
  by_cases h4p : (env.origin req.url = env.selfOrigin ∨ req.url ∈ EXTERNAL_RESOURCES)
      ∨ req.url ∈ STATIC_ASSETS
  · rw [if_pos h4p] at hput
    simp at hput
    obtain ⟨hu, hr⟩ := hput
    subst hu
    subst hr
    exact ⟨rfl, rfl, hbasic, hplat req.url r2 hn hbasic⟩
  · rw [if_neg h4p] at hput
    simp at hput

/-- Witness for C9 at a concrete input: the stored entry for `/logo.css`
comes from a `basic` response and its URL is the host origin's. -/
theorem c9_dynamic_writes_basic_same_origin_witness :
    "/logo.css" = c9req.url ∧
    c9env.network c9req.url = some ⟨200, "basic", none, "body"⟩ ∧
    (Response.mk 200 "basic" none "body").rtype = "basic" ∧
    c9env.origin "/logo.css" = c9env.selfOrigin :=
  c9_dynamic_writes_basic_same_origin c9env c9req "/logo.css"
    ⟨200, "basic", none, "body"⟩ (by decide) (fun _ _ _ _ => rfl)

/-- Claim C7: one reconciliation pass posts the `ASSETS_UPDATED` message
at most once per connected client — zero messages when no asset was
updated, exactly one per client (never one per asset) otherwise — and
every posted message carries exactly the identifiers updated in the
pass. -/
theorem c7_broadcast_once_per_pass (env : ReconEnv) (cache0 : Cache)
    (clients : List Nat) :
    (reconBroadcast env cache0 clients).length =
      (if (checkForUpdates env cache0).updated.isEmpty then 0
       else clients.length) ∧
    ((reconBroadcast env cache0 clients).all
       (fun p => p.2 == ⟨"ASSETS_UPDATED", (checkForUpdates env cache0).updated⟩))
      = true := by
  unfold reconBroadcast
  cases hu : (checkForUpdates env cache0).updated with
  | nil => simp
  | cons a t =>
    constructor
    · simp
    · simp [List.all_eq_true]

/-- Claim C10: a reconciliation pass leaves every key outside
`STATIC_ASSETS` untouched in the STATIC cache (in particular every
`EXTERNAL_RESOURCES` entry), never lists such a key as updated, and no
broadcast message mentions it. -/
theorem c10_pass_touches_only_manifest_assets (env : ReconEnv)
    (cache0 : Cache) (clients : List Nat) (k : String)
    (hk : k ∉ STATIC_ASSETS) :
    (checkForUpdates env cache0).cache k = cache0 k ∧
    ((checkForUpdates env cache0).updated.contains k) = false ∧
    ((reconBroadcast env cache0 clients).all
       (fun p => !(p.2.assets.contains k))) = true := by
  have h := foldl_updateStep_not_mem env STATIC_ASSETS k hk ⟨cache0, []⟩
  have hku : k ∉ (checkForUpdates env cache0).updated := by
    intro m
    have := h.2.mp m
    simp at this
  have hcontains : ((checkForUpdates env cache0).updated.contains k) = false := by
    rw [Bool.eq_false_iff]
    intro hcv
    obtain ⟨x, hx, he⟩ := List.contains_iff_exists_mem_beq.mp hcv
    have hkx : k = x := by simpa using he
    rw [← hkx] at hx
    exact hku hx
  refine ⟨h.1, hcontains, ?_⟩
  unfold reconBroadcast
  cases hu : (checkForUpdates env cache0).updated with
  | nil => simp
  | cons a t =>
    have hknot : ¬ k = a ∧ k ∉ t := by
      rw [hu] at hku
      simp only [List.mem_cons, not_or] at hku
      exact hku
    simp [List.all_eq_true]
    intro c hc
    exact ⟨hknot.1, hknot.2⟩

/-- Witness for C10 at a concrete input: the Google-fonts third-party
entry is untouched and unmentioned even when every manifest asset is
updated and broadcast to two clients. -/
theorem c10_pass_touches_only_manifest_assets_witness :
    (checkForUpdates c10env c10cache).cache
        "https://fonts.googleapis.com/css2?family=Segoe+UI:wght@300;400;500;600;700&display=swap" =
      c10cache
        "https://fonts.googleapis.com/css2?family=Segoe+UI:wght@300;400;500;600;700&display=swap" ∧
    ((checkForUpdates c10env c10cache).updated.contains
        "https://fonts.googleapis.com/css2?family=Segoe+UI:wght@300;400;500;600;700&display=swap") = false ∧
    ((reconBroadcast c10env c10cache [0, 1]).all
       (fun p => !(p.2.assets.contains
         "https://fonts.googleapis.com/css2?family=Segoe+UI:wght@300;400;500;600;700&display=swap"))) = true :=
  c10_pass_touches_only_manifest_assets c10env c10cache [0, 1]
    "https://fonts.googleapis.com/css2?family=Segoe+UI:wght@300;400;500;600;700&display=swap"
    (by decide)
